import Mathlib

/-!
Verification of the HMPPS Service Catalogue client
(`src/hmpps/clients/service_catalogue.py`).

The Python module is shallowly embedded: JSON documents become an inductive
`Json` type, the HTTP transport becomes an explicit oracle of outcomes
(an exception or a response), and every catch-all `try/except` becomes an
explicit `match` on an `Except` value.  Machine-irrelevant side effects
(logging, real sleeping) are modelled by recording the data they would use
(e.g. the list of backoff durations that `time.sleep` would receive).
-/

/-- JSON values as returned by `resp.json()`.  Numbers are modelled as
integers (the fields the client inspects -- page counts, status fields --
are integral). -/
inductive Json where
  | null : Json
  | bool : Bool → Json
  | num : Int → Json
  | str : String → Json
  | arr : List Json → Json
  | obj : List (String × Json) → Json

/-- Python truthiness (`if not x`) for the JSON values the client tests. -/
def pyTruthy : Json → Bool
  | Json.null => false
  | Json.bool b => b
  | Json.num n => n != 0
  | Json.str s => s != ""
  | Json.arr l => !l.isEmpty
  | Json.obj kvs => !kvs.isEmpty

/-- Python subscription `j[k]`: succeeds only on a dict that has the key,
otherwise raises (`KeyError` on a dict, `TypeError` on anything else). -/
def pyGetItem (j : Json) (k : String) : Except String Json :=
  match j with
  | Json.obj kvs =>
      match kvs.lookup k with
      | some v => Except.ok v
      | none => Except.error ("KeyError: " ++ k)
  | _ => Except.error "TypeError: not subscriptable"

/-- Python `j.get(k, default)`: defined on dicts, raises `AttributeError`
on any other value. -/
def pyGetDefault (j : Json) (k : String) (d : Json) : Except String Json :=
  match j with
  | Json.obj kvs => Except.ok ((kvs.lookup k).getD d)
  | _ => Except.error "AttributeError: no attribute get"

/-- Python `int(x)` on a JSON value: ints pass through, bools coerce,
numeric strings parse, everything else raises. -/
def pyInt (j : Json) : Except String Int :=
  match j with
  | Json.num n => Except.ok n
  | Json.bool b => Except.ok (if b then 1 else 0)
  | Json.str s =>
      match s.toInt? with
      | some n => Except.ok n
      | none => Except.error "ValueError: invalid literal for int"
  | _ => Except.error "TypeError: int argument"

/-- Python iteration as used by `list.extend(x)`: lists yield their
elements, dicts their keys, strings their characters; other values raise
`TypeError`. -/
def pyIter (j : Json) : Except String (List Json) :=
  match j with
  | Json.arr l => Except.ok l
  | Json.obj kvs => Except.ok (kvs.map (fun kv => Json.str kv.1))
  | Json.str s => Except.ok (s.data.map (fun c => Json.str (String.singleton c)))
  | _ => Except.error "TypeError: not iterable"

/-! ## URL pager (`_set_page`) and `_basename`

A parsed URL is modelled as its non-query part plus the query as the list
of key/value pairs `parse_qsl(query, keep_blank_values=True)` yields, in
order.  `urlencode`/`urlunparse` then re-serialise those pairs in order,
so at this level of abstraction the parse/serialise round trip is the
identity and only the `dict` conversion and the assignment need modelling. -/

structure Url where
  base : String
  query : List (String × String)
deriving DecidableEq, Repr

/-- Python dict assignment `d[k] = v` on an association list in insertion
order: if `k` is already a key its value is replaced in place, otherwise
the pair is appended. -/
def dictAssign (d : List (String × String)) (k v : String) :
    List (String × String) :=
  if d.any (fun kv => kv.1 == k) then
    d.map (fun kv => if kv.1 == k then (k, v) else kv)
  else
    d ++ [(k, v)]

/-- Python `dict(pairs)`: left fold of assignments into an empty dict
(first-occurrence position, last value wins). -/
def dictOfPairs (l : List (String × String)) : List (String × String) :=
  l.foldl (fun d kv => dictAssign d kv.1 kv.2) []

/-- Query-parameter key used for pagination. -/
def pageParam : String := "pagination[page]"

/-- Embedding of `_set_page`: `dict(parse_qsl(query))`, assign
`pagination[page] = str(page)`, re-encode. -/
def set_page (u : Url) (page : Int) : Url :=
  { base := u.base
    query := dictAssign (dictOfPairs u.query) pageParam (toString page) }

/-- Embedding of `_basename`: the URL up to the first question mark
(`url.split('?', 1)[0]`). -/
def basename (url : String) : String :=
  (url.splitOn "?").headD url

/-! ## Retrying fetcher (`_request_json_with_retry`)

The transport is an oracle `attemptOutcome : Nat → Except String Json`
giving, for each attempt index (0-based), either the parsed JSON body of a
successful `GET` or the exception the attempt raised (`RequestException`
from the request itself or from `raise_for_status`, or `ValueError` from
`resp.json()`).  The run records the number of `session.get` calls made
and the list of durations passed to `time.sleep`, in order. -/

/-- Error raised after exhausting retries (`RuntimeError`): carries the
URL stripped of its query string and the last underlying failure. -/
structure RetriesExhausted where
  urlBase : String
  lastErr : Option String
deriving DecidableEq, Repr

/-- Result of one call of the retrying fetcher. -/
structure RetryRun where
  result : Except RetriesExhausted Json
  attempts : Nat
  sleeps : List Rat

/-- Backoff delay `0.5 * 2 ** (attempt - 1)` computed from the attempt
counter after its increment. -/
def backoffDelay (attempt : Nat) : Rat :=
  (1 / 2 : Rat) * 2 ^ (attempt - 1)

/-- The `while attempt < max_retries` loop of `_request_json_with_retry`,
with `fuel = max_retries - attempt` so the recursion is structural:
`fuel = 0` is the loop condition failing (fall through to the final
`raise`).  The loop body (one attempt: return the JSON on success; on
failure record the error, sleep unless the incremented counter reached
`max_retries`, and loop) is written out twice, once for the last
permitted attempt (`fuel = 1`: a failure skips the sleep and the next
loop test falls through to the `raise`) and once for an attempt with
retries left (`fuel ≥ 2`: a failure sleeps `0.5 * 2 ** (attempt - 1)`
seconds, computed from the incremented counter, and loops). -/
def retryAux (attemptOutcome : Nat → Except String Json) (urlBase : String) :
    Nat → Nat → Option String → RetryRun
  | 0, _, lastErr => ⟨Except.error ⟨urlBase, lastErr⟩, 0, []⟩
  | 1, attempt, _ =>
      match attemptOutcome attempt with
      | Except.ok j => ⟨Except.ok j, 1, []⟩
      | Except.error e => ⟨Except.error ⟨urlBase, some e⟩, 1, []⟩
  | fuel + 2, attempt, _ =>
      match attemptOutcome attempt with
      | Except.ok j => ⟨Except.ok j, 1, []⟩
      | Except.error e =>
          let r := retryAux attemptOutcome urlBase (fuel + 1) (attempt + 1) (some e)
          ⟨r.result, r.attempts + 1, backoffDelay (attempt + 1) :: r.sleeps⟩

/-- Embedding of `_request_json_with_retry(url, max_retries, timeout)`:
start at `attempt = 0` with `last_err = None`. -/
def requestJsonWithRetry (attemptOutcome : Nat → Except String Json)
    (url : String) (maxRetries : Nat) : RetryRun :=
  retryAux attemptOutcome (basename url) maxRetries 0 none

/-! ## Page aggregator (`get_with_retry`)

Page `p` of the collection is fetched from `base_url` (for `p = 1`) or
`_set_page(base_url, p)` (for `p ≥ 2`); since the page number determines
the URL, the transport is abstracted as a page-indexed oracle
`fetchPage : Nat → Except String Json` giving the final outcome of
`_request_json_with_retry` for that page (its JSON body, or the exception
it let escape).  Every statement inside each `try` is modelled in source
order; note that `pagination["page"]` is read for the debug log before
`pageCount` is read and before the `data` array is appended. -/

/-- First-page block of `get_with_retry`: returns the records collected so
far together with `page_count`.  Any exception lands in the `except`
handler, which leaves `json_data` empty and sets `page_count = 1`. -/
def firstPage (fetchPage : Nat → Except String Json) : List Json × Int :=
  match fetchPage 1 with
  | Except.error _ => ([], 1)
  | Except.ok first =>
    match pyGetItem first "meta" with
    | Except.error _ => ([], 1)
    | Except.ok meta =>
      match pyGetItem meta "pagination" with
      | Except.error _ => ([], 1)
      | Except.ok pagination =>
        match pyGetItem pagination "page" with
        | Except.error _ => ([], 1)
        | Except.ok _ =>
          match pyGetDefault pagination "pageCount" (Json.num 1) with
          | Except.error _ => ([], 1)
          | Except.ok pc =>
            match pyInt pc with
            | Except.error _ => ([], 1)
            | Except.ok pageCount =>
              match pyGetDefault first "data" (Json.arr []) with
              | Except.error _ => ([], 1)
              | Except.ok dataField =>
                match pyIter dataField with
                | Except.error _ => ([], 1)
                | Except.ok items => (items, pageCount)

/-- Body of the per-page `try` in the `for p in range(2, page_count + 1)`
loop: a failure anywhere contributes nothing (`except Exception: pass`). -/
def pageItems (fetchPage : Nat → Except String Json) (p : Nat) : List Json :=
  match fetchPage p with
  | Except.error _ => []
  | Except.ok pageJson =>
    match pyGetItem pageJson "meta" with
    | Except.error _ => []
    | Except.ok meta =>
      match pyGetItem meta "pagination" with
      | Except.error _ => []
      | Except.ok pMeta =>
        match pyGetItem pMeta "page" with
        | Except.error _ => []
        | Except.ok _ =>
          match pyGetDefault pageJson "data" (Json.arr []) with
          | Except.error _ => []
          | Except.ok dataField =>
            match pyIter dataField with
            | Except.error _ => []
            | Except.ok items => items

/-- Pages visited by `range(2, page_count + 1)`. -/
def pageList (pageCount : Int) : List Nat :=
  List.range' 2 (pageCount - 1).toNat

/-- Embedding of `get_with_retry`: first page, then the remaining pages in
increasing order, concatenating each page's `data` array. -/
def getWithRetry (fetchPage : Nat → Except String Json) : List Json :=
  let fp := firstPage fetchPage
  fp.1 ++ (pageList fp.2).flatMap (pageItems fetchPage)

/-! ## Mutators (`add`, `update`, `delete`, `unpublish`)

Each mutator issues exactly one HTTP request.  The outcome of that request
is either an exception raised by the transport or a delivered response: a
status code plus, for `add` (the only mutator that reads the body), the
result of `x.json()` -- parsed JSON or a `ValueError`. -/

/-- Outcome of a single `session.post/put/delete` call. -/
inductive HttpOutcome where
  | exn : String → HttpOutcome
  | resp : Int → Except String Json → HttpOutcome

/-- Return value of `add`: the created record (`x.json()`) on success, or
the Python `False` failure marker. -/
inductive AddResult where
  | record : Json → AddResult
  | failure : AddResult

/-- Embedding of `update(table, element_id, data)`: `True` exactly on
status 200, `False` on any other status or on an exception; the body is
never read. -/
def update (o : HttpOutcome) : Bool :=
  match o with
  | HttpOutcome.exn _ => false
  | HttpOutcome.resp status _ => status == 200

/-- Embedding of `unpublish(table, element_id)`: a `PUT` of
`{'publishedAt': None}`; `True` exactly on status 200. -/
def unpublish (o : HttpOutcome) : Bool :=
  match o with
  | HttpOutcome.exn _ => false
  | HttpOutcome.resp status _ => status == 200

/-- Embedding of `delete(table, element_id)`: `True` exactly when
`200 <= status < 300`. -/
def delete (o : HttpOutcome) : Bool :=
  match o with
  | HttpOutcome.exn _ => false
  | HttpOutcome.resp status _ => decide (200 ≤ status ∧ status < 300)

/-- Embedding of `add(table, data)`.  Inside the `try`: the `POST`, then on
status 201 the success log evaluates
`data["team_name"] if "team_name" in data else data["name"]`, which raises
`KeyError` (caught, yielding `False`) when neither key is present; on any
other status the result is `False`.  The final `return x.json()` sits
OUTSIDE the `try`, so a body that fails to parse raises out of `add`:
that path is the `Except.error` result. -/
def add (data : List (String × Json)) (o : HttpOutcome) :
    Except String AddResult :=
  match o with
  | HttpOutcome.exn _ => Except.ok AddResult.failure
  | HttpOutcome.resp status body =>
      if status == 201 then
        if (data.lookup "team_name").isSome || (data.lookup "name").isSome then
          match body with
          | Except.ok j => Except.ok (AddResult.record j)
          | Except.error e => Except.error e
        else
          Except.ok AddResult.failure
      else
        Except.ok AddResult.failure

/-! ### Request accounting

To state that no mutator issues more than one request, the session is
threaded explicitly: it holds the outcomes the transport will deliver and
counts the requests issued.  Each mutator consumes exactly one outcome. -/

/-- Session state: pending transport outcomes and a request counter. -/
structure Sess where
  pending : List HttpOutcome
  calls : Nat

/-- One HTTP request: consumes the next prepared outcome (an empty oracle
behaves as a connection error) and bumps the counter. -/
def sessRequest (s : Sess) : HttpOutcome × Sess :=
  match s.pending with
  | [] => (HttpOutcome.exn "ConnectionError", ⟨[], s.calls + 1⟩)
  | o :: rest => (o, ⟨rest, s.calls + 1⟩)

/-- Session-threaded `update`: one `PUT`. -/
def updateCall (s : Sess) : Bool × Sess :=
  let r := sessRequest s
  (update r.1, r.2)

/-- Session-threaded `unpublish`: one `PUT`. -/
def unpublishCall (s : Sess) : Bool × Sess :=
  let r := sessRequest s
  (unpublish r.1, r.2)

/-- Session-threaded `delete`: one `DELETE`. -/
def deleteCall (s : Sess) : Bool × Sess :=
  let r := sessRequest s
  (delete r.1, r.2)

/-- Session-threaded `add`: one `POST`. -/
def addCall (data : List (String × Json)) (s : Sess) :
    Except String AddResult × Sess :=
  let r := sessRequest s
  (add data r.1, r.2)

/-! ## Job status reporter (`update_scheduled_job`) -/

/-- Job context (`Jobs`): the fields `update_scheduled_job` reads.  A name
that is falsy (empty) is replaced by `'unknown'` before the lookup; that
substitution only affects which record is looked up, which is already
abstracted by the `scData` parameter below. -/
structure Jobs where
  name : String
  error_messages : List String

/-- Result of one `update_scheduled_job` call: the boolean returned, the
payload built, and whether `self.update` was invoked. -/
structure SchedJobRun where
  result : Bool
  payload : List (String × Json)
  updateCalled : Bool

/-- The `job_data` payload: always `last_scheduled_run`, `result` and
`error_details`; `last_successful_run` is added exactly when the status is
the success sentinel `'Succeeded'`.  Timestamps are abstracted by `now`. -/
def buildJobData (status : String) (errs : List String) (now : String) :
    List (String × Json) :=
  let base := [("last_scheduled_run", Json.str now),
               ("result", Json.str status),
               ("error_details", Json.arr (errs.map Json.str))]
  if status == "Succeeded" then base ++ [("last_successful_run", Json.str now)]
  else base

/-- Embedding of `update_scheduled_job(status, job_context)`.
`scData` is the record returned by `get_record('scheduled-jobs', 'name',
job_name)` (`none` for Python `None`); `updateResult` is the boolean that
`self.update(...)` returns when invoked.  Source order: the payload is
built first; then `if not sc_scheduled_jobs_data: return False`; then
`job_id = sc_scheduled_jobs_data.get('documentId')` (an `AttributeError`
on a non-dict is caught by the surrounding `except`, yielding `False`);
`if not job_id: return False`; finally `self.update(...)` is invoked as a
bare statement -- its boolean result is discarded -- and the function
returns `True`. -/
def updateScheduledJob (scData : Option Json) (updateResult : Bool)
    (status : String) (ctx : Jobs) (now : String) : SchedJobRun :=
  let jobData := buildJobData status ctx.error_messages now
  match scData with
  | none => ⟨false, jobData, false⟩
  | some r =>
      if pyTruthy r then
        match r with
        | Json.obj kvs =>
            match kvs.lookup "documentId" with
            | none => ⟨false, jobData, false⟩
            | some jid =>
                if pyTruthy jid then
                  let _ := updateResult
                  ⟨true, jobData, true⟩
                else ⟨false, jobData, false⟩
        | _ => ⟨false, jobData, false⟩
      else ⟨false, jobData, false⟩

/-! ## Connection test (`test_connection` and `__init__`) -/

/-- Outcome of the `session.head` call in `test_connection`. -/
inductive HeadOutcome where
  | exn : String → HeadOutcome
  | resp : Int → HeadOutcome

/-- Embedding of `test_connection`: any delivered response -- the status
code is only logged, never checked -- yields `True`; only a raised
exception yields `False`. -/
def test_connection (o : HeadOutcome) : Bool :=
  match o with
  | HeadOutcome.exn _ => false
  | HeadOutcome.resp _ => true

/-- The slice of client state relevant to connectivity. -/
structure SCClient where
  connection_ok : Bool

/-- Embedding of the tail of `ServiceCatalogue.__init__` (with well-formed
`params`): the constructor's only interaction with the network is
`self.connection_ok = self.test_connection()`, whose catch-all handler
makes construction total. -/
def initServiceCatalogue (headOutcome : HeadOutcome) : SCClient :=
  { connection_ok := test_connection headOutcome }

/-! ## Auxiliary definitions used by the statements -/

/-- Well-formed collection-page envelope as the catalogue returns it:
a `data` array of records plus a `meta.pagination` block carrying the
page number and the total page count. -/
def pageEnvelope (rs : List Json) (page : Nat) (pageCount : Int) : Json :=
  Json.obj [("data", Json.arr rs),
            ("meta", Json.obj
              [("pagination", Json.obj
                [("page", Json.num (Int.ofNat page)),
                 ("pageCount", Json.num pageCount)])])]

/-- Whether a response body carries a `meta.pagination` block reachable by
the subscriptions `first['meta']['pagination']`. -/
def hasMetaPagination (j : Json) : Bool :=
  match pyGetItem j "meta" with
  | Except.error _ => false
  | Except.ok m =>
      match pyGetItem m "pagination" with
      | Except.error _ => false
      | Except.ok _ => true

/-! ## Theorems -/

/-- Claim C10: the connectivity flag set at construction is `True` whenever
the `HEAD` request returns any response without raising -- the status code
(4xx/5xx included) is never inspected -- and `False` only when the request
raises; construction never raises on an unreachable catalogue (it is a
total function of the `HEAD` outcome). -/
theorem connection_flag_spec :
    (∀ status : Int, test_connection (HeadOutcome.resp status) = true) ∧
    (∀ e : String, test_connection (HeadOutcome.exn e) = false) ∧
    (∀ o : HeadOutcome, (initServiceCatalogue o).connection_ok = test_connection o) :=
  ⟨fun _ => rfl, fun _ => rfl, fun _ => rfl⟩

/-- Claim C9: when the posted fields contain neither a `team_name` nor a
`name` key, `add` returns the `False` failure marker even on a 201
response (the `KeyError` raised while building the success log message is
caught by the surrounding handler), whatever the response body was. -/
theorem add_201_without_name_keys_returns_failure :
    ∀ (data : List (String × Json)) (body : Except String Json),
      data.lookup "team_name" = none → data.lookup "name" = none →
      add data (HttpOutcome.resp 201 body) = Except.ok AddResult.failure := by
  intro data body h1 h2
  simp [add, h1, h2]

/-- Witness for `add_201_without_name_keys_returns_failure` at empty
fields and a well-formed 201 body. -/
theorem add_201_without_name_keys_returns_failure_witness :
    add [] (HttpOutcome.resp 201 (Except.ok Json.null)) = Except.ok AddResult.failure :=
  add_201_without_name_keys_returns_failure [] (Except.ok Json.null) rfl rfl

/-- Claim C1 counterexample: a resolvable record (it carries a
`documentId`) whose update call FAILS (`self.update` returns `False`),
yet `update_scheduled_job` returns `True`: the boolean result of the
update call is discarded (the bare statement `self.update(...)` on source
line 460), so the claim "returns the boolean result of that update call"
is false. -/
theorem update_scheduled_job_result_counterexample :
    (updateScheduledJob (some (Json.obj [("documentId", Json.str "doc-1")]))
        false "Failed" ⟨"hmpps-job", []⟩ "2026-01-01T00:00:00").updateCalled = true ∧
    (updateScheduledJob (some (Json.obj [("documentId", Json.str "doc-1")]))
        false "Failed" ⟨"hmpps-job", []⟩ "2026-01-01T00:00:00").result ≠ false := by
  decide

/-- Claim C1 (amended): for every resolvable scheduled-job record,
`update_scheduled_job` invokes the update and returns `True` regardless of
the boolean the update call returned; it returns `False` only when
resolution fails. -/
theorem update_scheduled_job_true_when_resolved :
    ∀ (updateResult : Bool) (status now : String) (ctx : Jobs)
      (kvs : List (String × Json)) (jid : Json),
      kvs.lookup "documentId" = some jid → pyTruthy jid = true →
      (updateScheduledJob (some (Json.obj kvs)) updateResult status ctx now).result
          = true ∧
      (updateScheduledJob (some (Json.obj kvs)) updateResult status ctx now).updateCalled
          = true := by
  intro updateResult status now ctx kvs jid hlk hjid
  cases kvs with
  | nil => simp [List.lookup] at hlk
  | cons hd tl =>
    have htr : pyTruthy (Json.obj (hd :: tl)) = true := by simp [pyTruthy]
    simp [updateScheduledJob, hlk, htr, hjid]

/-- Witness for `update_scheduled_job_true_when_resolved` at a concrete
record carrying a truthy `documentId` and a failing update. -/
theorem update_scheduled_job_true_when_resolved_witness :
    (updateScheduledJob (some (Json.obj [("documentId", Json.str "d1")]))
        false "Succeeded" ⟨"job-a", []⟩ "t0").result = true ∧
    (updateScheduledJob (some (Json.obj [("documentId", Json.str "d1")]))
        false "Succeeded" ⟨"job-a", []⟩ "t0").updateCalled = true :=
  update_scheduled_job_true_when_resolved false "Succeeded" "t0" ⟨"job-a", []⟩
    [("documentId", Json.str "d1")] (Json.str "d1") rfl rfl

/-- Claim C6: mutation status mapping.  `add` yields a created record only
on status 201 and otherwise the `False` failure marker; `update` and
`unpublish` return `True` exactly on status 200; `delete` returns `True`
exactly when the status lies in `[200, 300)`; and each of the four
mutators issues exactly one HTTP request per call. -/
theorem mutation_status_mapping :
    (∀ (data : List (String × Json)) (status : Int) (body : Except String Json)
        (j : Json),
        add data (HttpOutcome.resp status body) = Except.ok (AddResult.record j) →
        status = 201) ∧
    (∀ (data : List (String × Json)) (status : Int) (body : Except String Json),
        status ≠ 201 →
        add data (HttpOutcome.resp status body) = Except.ok AddResult.failure) ∧
    (∀ (status : Int) (body : Except String Json),
        update (HttpOutcome.resp status body) = true ↔ status = 200) ∧
    (∀ (status : Int) (body : Except String Json),
        unpublish (HttpOutcome.resp status body) = true ↔ status = 200) ∧
    (∀ (status : Int) (body : Except String Json),
        delete (HttpOutcome.resp status body) = true ↔ 200 ≤ status ∧ status < 300) ∧
    (∀ s : Sess, (updateCall s).2.calls = s.calls + 1) ∧
    (∀ s : Sess, (unpublishCall s).2.calls = s.calls + 1) ∧
    (∀ s : Sess, (deleteCall s).2.calls = s.calls + 1) ∧
    (∀ (data : List (String × Json)) (s : Sess),
        (addCall data s).2.calls = s.calls + 1) := by
  refine ⟨?_, ?_, ?_, ?_, ?_, ?_, ?_, ?_, ?_⟩
  · intro data status body j h
    by_cases hs : status = 201
    · exact hs
    · exfalso
      simp [add, beq_iff_eq, hs] at h
  · intro data status body hs
    simp [add, beq_iff_eq, hs]
  · intro status body
    simp [update, beq_iff_eq]
  · intro status body
    simp [unpublish, beq_iff_eq]
  · intro status body
    simp [delete, decide_eq_true_eq]
  · intro s
    cases s with
    | mk pending calls => cases pending <;> rfl
  · intro s
    cases s with
    | mk pending calls => cases pending <;> rfl
  · intro s
    cases s with
    | mk pending calls => cases pending <;> rfl
  · intro data s
    cases s with
    | mk pending calls => cases pending <;> rfl

/-- Witness for `mutation_status_mapping`, instantiating each part at a
concrete status and one-request session. -/
theorem mutation_status_mapping_witness :
    ((201 : Int) = 201) ∧
    add [("name", Json.str "x")] (HttpOutcome.resp 400 (Except.ok Json.null))
        = Except.ok AddResult.failure ∧
    update (HttpOutcome.resp 200 (Except.ok Json.null)) = true ∧
    unpublish (HttpOutcome.resp 200 (Except.ok Json.null)) = true ∧
    delete (HttpOutcome.resp 204 (Except.ok Json.null)) = true ∧
    (updateCall ⟨[HttpOutcome.resp 200 (Except.ok Json.null)], 0⟩).2.calls = 0 + 1 :=
  ⟨mutation_status_mapping.1 [("name", Json.str "x")] 201 (Except.ok Json.null)
      Json.null rfl,
   mutation_status_mapping.2.1 [("name", Json.str "x")] 400 (Except.ok Json.null)
      (by decide),
   (mutation_status_mapping.2.2.1 200 (Except.ok Json.null)).mpr rfl,
   (mutation_status_mapping.2.2.2.1 200 (Except.ok Json.null)).mpr rfl,
   (mutation_status_mapping.2.2.2.2.1 204 (Except.ok Json.null)).mpr
      (by norm_num),
   mutation_status_mapping.2.2.2.2.2.1 ⟨[HttpOutcome.resp 200 (Except.ok Json.null)], 0⟩⟩

/-- Claim C3 counterexample: a 201 response whose body fails to parse as
JSON makes `add` raise -- `return x.json()` sits outside the `try` block
-- so the parsing exception escapes to the caller, contradicting the
claim that no public operation lets one escape. -/
theorem add_unparseable_201_counterexample :
    add [("name", Json.str "svc")]
        (HttpOutcome.resp 201 (Except.error "ValueError: Expecting value"))
      = Except.error "ValueError: Expecting value" := rfl

/-- Claim C3 (amended): `add` lets an exception escape exactly when the
status is 201, the success-log key lookup succeeds (a `team_name` or
`name` field is present), and the body fails to parse; in every other
case it returns a value, and the escaping exception is precisely the
body's parse error.  (The remaining public operations are total by
construction in this embedding: their catch-all handlers cover their
whole bodies.) -/
theorem add_exception_escape_characterization :
    ∀ (data : List (String × Json)) (o : HttpOutcome) (e : String),
      add data o = Except.error e ↔
        (o = HttpOutcome.resp 201 (Except.error e) ∧
         ((data.lookup "team_name").isSome || (data.lookup "name").isSome) = true) := by
  intro data o e
  cases o with
  | exn s => simp [add]
  | resp status body =>
    by_cases hs : status = 201
    · subst hs
      cases hk : ((data.lookup "team_name").isSome || (data.lookup "name").isSome) with
      | true =>
        cases body with
        | ok j => simp [add, hk]
        | error e' => simp [add, hk]
      | false => simp [add, hk]
    · simp [add, beq_iff_eq, hs]

/-- Witness for `add_exception_escape_characterization`: the forward
direction at a concrete escaping run. -/
theorem add_exception_escape_characterization_witness :
    HttpOutcome.resp 201 (Except.error "boom")
        = HttpOutcome.resp 201 (Except.error "boom") ∧
    (([("name", Json.str "x")].lookup "team_name").isSome
        || ([("name", Json.str "x")].lookup "name").isSome) = true :=
  (add_exception_escape_characterization [("name", Json.str "x")]
      (HttpOutcome.resp 201 (Except.error "boom")) "boom").mp rfl

/-- Bounds of the retry loop: at most `fuel` attempts are made, at least
one is made whenever `fuel` is positive, and the number of sleeps is at
most one less than the number of attempts (no sleep follows the final
attempt). -/
theorem retryAux_bounds (attemptOutcome : Nat → Except String Json)
    (urlBase : String) :
    ∀ (fuel attempt : Nat) (lastErr : Option String),
      (retryAux attemptOutcome urlBase fuel attempt lastErr).attempts ≤ fuel ∧
      (fuel ≠ 0 → 1 ≤ (retryAux attemptOutcome urlBase fuel attempt lastErr).attempts) ∧
      (retryAux attemptOutcome urlBase fuel attempt lastErr).sleeps.length
        ≤ (retryAux attemptOutcome urlBase fuel attempt lastErr).attempts - 1 := by
  intro fuel
  induction fuel using Nat.strong_induction_on with
  | _ fuel ih =>
    intro attempt lastErr
    match fuel with
    | 0 =>
      refine ⟨Nat.le_refl 0, fun h => absurd rfl h, Nat.le_refl 0⟩
    | 1 =>
      cases h : attemptOutcome attempt with
      | ok j => simp [retryAux, h]
      | error e => simp [retryAux, h]
    | n + 2 =>
      cases h : attemptOutcome attempt with
      | ok j => simp [retryAux, h]
      | error e =>
        obtain ⟨hb1, hb2, hb3⟩ := ih (n + 1) (by omega) (attempt + 1) (some e)
        have hb2' := hb2 (Nat.succ_ne_zero n)
        simp only [retryAux, h, List.length_cons]
        refine ⟨by omega, fun _ => by omega, by omega⟩

/-- Claim C4: under permanent failure with `max_retries = 4`, exactly 4
fetch attempts are made, exactly 3 backoff sleeps occur with durations
0.5, 1.0, 2.0 in that order, and the run ends in a retries-exhausted
error carrying the last underlying failure and the URL stripped of its
query string; in general the attempt count never exceeds `max_retries`
and no sleep occurs after the final attempt. -/
theorem retry_backoff_schedule :
    ∀ (attemptOutcome : Nat → Except String Json) (url : String)
      (es : Nat → String),
      (∀ i, attemptOutcome i = Except.error (es i)) →
      ((requestJsonWithRetry attemptOutcome url 4).attempts = 4 ∧
       (requestJsonWithRetry attemptOutcome url 4).sleeps = [(1 : Rat)/2, 1, 2] ∧
       (requestJsonWithRetry attemptOutcome url 4).result
          = Except.error ⟨basename url, some (es 3)⟩) ∧
      ∀ (oracle2 : Nat → Except String Json) (url2 : String) (maxRetries : Nat),
        (requestJsonWithRetry oracle2 url2 maxRetries).attempts ≤ maxRetries ∧
        (requestJsonWithRetry oracle2 url2 maxRetries).sleeps.length
          ≤ (requestJsonWithRetry oracle2 url2 maxRetries).attempts - 1 := by
  intro attemptOutcome url es h
  constructor
  · refine ⟨?_, ?_, ?_⟩ <;>
      simp [requestJsonWithRetry, retryAux, h 0, h 1, h 2, h 3, backoffDelay] <;>
      norm_num
  · intro oracle2 url2 maxRetries
    exact ⟨(retryAux_bounds oracle2 (basename url2) maxRetries 0 none).1,
           (retryAux_bounds oracle2 (basename url2) maxRetries 0 none).2.2⟩

/-- Witness for `retry_backoff_schedule` at a concrete always-failing
oracle and URL. -/
theorem retry_backoff_schedule_witness :
    (requestJsonWithRetry (fun i => Except.error (toString i))
        "https://catalogue/v1/components?a=1" 4).attempts = 4 ∧
    (requestJsonWithRetry (fun i => Except.error (toString i))
        "https://catalogue/v1/components?a=1" 4).sleeps = [(1 : Rat)/2, 1, 2] ∧
    (requestJsonWithRetry (fun i => Except.error (toString i))
        "https://catalogue/v1/components?a=1" 4).result
      = Except.error ⟨basename "https://catalogue/v1/components?a=1",
                      some (toString 3)⟩ :=
  (retry_backoff_schedule (fun i => Except.error (toString i))
      "https://catalogue/v1/components?a=1" (fun i => toString i)
      (fun _ => rfl)).1

/-- Claim C7: the scheduled-job update payload always contains the
last-run timestamp, the result status and the supplied error-message
list; it contains `last_successful_run` exactly when the status is the
success sentinel `'Succeeded'`; every call builds exactly this payload;
and when the record cannot be resolved the call returns `False` without
invoking the update. -/
theorem scheduled_job_payload_spec :
    ∀ (status now : String) (errs : List String) (scData : Option Json)
      (updateResult : Bool) (ctx : Jobs),
      (buildJobData status errs now).lookup "last_scheduled_run"
          = some (Json.str now) ∧
      (buildJobData status errs now).lookup "result" = some (Json.str status) ∧
      (buildJobData status errs now).lookup "error_details"
          = some (Json.arr (errs.map Json.str)) ∧
      (((buildJobData status errs now).lookup "last_successful_run").isSome
          ↔ status = "Succeeded") ∧
      (updateScheduledJob scData updateResult status ctx now).payload
          = buildJobData status ctx.error_messages now ∧
      (updateScheduledJob none updateResult status ctx now).result = false ∧
      (updateScheduledJob none updateResult status ctx now).updateCalled = false := by
  intro status now errs scData updateResult ctx
  refine ⟨?_, ?_, ?_, ?_, ?_, rfl, rfl⟩
  · by_cases h : status = "Succeeded" <;> simp [buildJobData, h, List.lookup]
  · by_cases h : status = "Succeeded" <;> simp [buildJobData, h, List.lookup]
  · by_cases h : status = "Succeeded" <;> simp [buildJobData, h, List.lookup]
  · by_cases h : status = "Succeeded" <;> simp [buildJobData, h, List.lookup]
  · cases scData with
    | none => rfl
    | some r =>
      cases r <;> simp only [updateScheduledJob] <;>
        (repeat' split) <;> rfl

/-- Looking up `k` after the in-place replacement branch of a dict
assignment of `k` yields the new value. -/
theorem lookup_map_assign :
    ∀ (d : List (String × String)) (k v : String),
      d.any (fun kv => kv.1 == k) = true →
      (d.map (fun kv => if kv.1 == k then (k, v) else kv)).lookup k = some v := by
  intro d k v h
  induction d with
  | nil => simp at h
  | cons hd tl ih =>
    obtain ⟨a, b⟩ := hd
    simp only [List.any_cons, Bool.or_eq_true] at h
    by_cases hak : a = k
    · subst hak
      rw [List.map_cons, if_pos (by simp)]
      simp only [List.lookup, beq_self_eq_true]
    · have hka : (k == a) = false := beq_eq_false_iff_ne.mpr (Ne.symm hak)
      have htl : tl.any (fun kv => kv.1 == k) = true := by
        rcases h with h | h
        · exact absurd (beq_iff_eq.mp h) hak
        · exact h
      rw [List.map_cons, if_neg (by simp [hak])]
      simp only [List.lookup, hka]
      exact ih htl

/-- Looking up `k` in a list extended on the right with a `(k, v)` pair,
when no earlier pair has key `k`, yields `v`. -/
theorem lookup_append_single :
    ∀ (d : List (String × String)) (k v : String),
      d.any (fun kv => kv.1 == k) = false →
      (d ++ [(k, v)]).lookup k = some v := by
  intro d k v h
  induction d with
  | nil => simp [List.lookup]
  | cons hd tl ih =>
    obtain ⟨a, b⟩ := hd
    simp only [List.any_cons, Bool.or_eq_false_iff] at h
    have hne : a ≠ k := beq_eq_false_iff_ne.mp h.1
    have hka : (k == a) = false := beq_eq_false_iff_ne.mpr (Ne.symm hne)
    simp [List.lookup, hka, ih h.2]

/-- Assigning key `k` in a dict makes looking up `k` yield the assigned
value, whether or not the key was present. -/
theorem lookup_dictAssign_self (d : List (String × String)) (k v : String) :
    (dictAssign d k v).lookup k = some v := by
  unfold dictAssign
  cases hmem : d.any (fun kv => kv.1 == k) with
  | true =>
    simp only [if_true]
    exact lookup_map_assign d k v hmem
  | false =>
    simp only [Bool.false_eq_true, if_false]
    exact lookup_append_single d k v hmem

/-- Assigning key `q` in a dict leaves lookups of any other key `k`
unchanged. -/
theorem lookup_dictAssign_other (d : List (String × String)) (k q v : String)
    (hne : k ≠ q) :
    (dictAssign d q v).lookup k = d.lookup k := by
  unfold dictAssign
  cases hmem : d.any (fun kv => kv.1 == q) with
  | true =>
    simp only [if_true]
    clear hmem
    induction d with
    | nil => rfl
    | cons hd tl ih =>
      obtain ⟨a, b⟩ := hd
      by_cases haq : a = q
      · subst haq
        have hka : (k == a) = false := beq_eq_false_iff_ne.mpr hne
        rw [List.map_cons, if_pos (by simp)]
        simp only [List.lookup, hka]
        exact ih
      · have hfalse : ((a, b).1 == q) = false := beq_eq_false_iff_ne.mpr haq
        rw [List.map_cons, if_neg (by simp [haq])]
        cases hka : (k == a) with
        | true => simp only [List.lookup, hka]
        | false =>
          simp only [List.lookup, hka]
          exact ih
  | false =>
    simp only [Bool.false_eq_true, if_false]
    clear hmem
    induction d with
    | nil => simp [List.lookup, beq_eq_false_iff_ne.mpr hne]
    | cons hd tl ih =>
      obtain ⟨a, b⟩ := hd
      cases hka : (k == a) with
      | true => simp [List.lookup, hka]
      | false =>
        simp only [List.cons_append, List.lookup, hka]
        exact ih

/-- Folding one more pair into a Python dict is a single assignment. -/
theorem dictOfPairs_concat (l : List (String × String)) (kv : String × String) :
    dictOfPairs (l ++ [kv]) = dictAssign (dictOfPairs l) kv.1 kv.2 := by
  simp [dictOfPairs, List.foldl_concat]

/-- A Python dict built from a pair list answers lookups like the
reversed pair list: the last occurrence of a key wins. -/
theorem lookup_dictOfPairs (l : List (String × String)) (k : String) :
    (dictOfPairs l).lookup k = l.reverse.lookup k := by
  induction l using List.reverseRecOn with
  | nil => rfl
  | append_singleton l kv ih =>
    obtain ⟨q, v⟩ := kv
    rw [dictOfPairs_concat]
    by_cases hk : k = q
    · subst hk
      rw [lookup_dictAssign_self]
      simp [List.lookup]
    · rw [lookup_dictAssign_other _ _ _ _ hk, ih]
      simp [List.lookup, beq_eq_false_iff_ne.mpr hk]

/-- Assigning key `k` leaves exactly `max(previous count, 1)` pairs with
key `k`. -/
theorem countP_dictAssign_self (d : List (String × String)) (k v : String) :
    (dictAssign d k v).countP (fun kv => kv.1 == k)
      = max (d.countP (fun kv => kv.1 == k)) 1 := by
  unfold dictAssign
  cases hmem : d.any (fun kv => kv.1 == k) with
  | true =>
    simp only [if_true]
    have hmap : (d.map (fun kv => if kv.1 == k then (k, v) else kv)).countP
        (fun kv => kv.1 == k) = d.countP (fun kv => kv.1 == k) := by
      clear hmem
      induction d with
      | nil => rfl
      | cons hd tl ih =>
        obtain ⟨a, b⟩ := hd
        by_cases hak : a = k
        · subst hak
          rw [List.map_cons, if_pos (by simp)]
          simp only [List.countP_cons, beq_self_eq_true, if_pos]
          rw [ih]
        · have hb : ((a, b).1 == k) = false := beq_eq_false_iff_ne.mpr hak
          rw [List.map_cons, if_neg (by simp [hak])]
          simp only [List.countP_cons, hb, Bool.false_eq_true, if_false,
            Nat.add_zero]
          exact ih
    rw [hmap]
    have hpos : 0 < d.countP (fun kv => kv.1 == k) := by
      rw [List.countP_pos_iff]
      rcases List.any_eq_true.mp hmem with ⟨x, hx, hpx⟩
      exact ⟨x, hx, hpx⟩
    omega
  | false =>
    simp only [Bool.false_eq_true, if_false]
    have hzero : d.countP (fun kv => kv.1 == k) = 0 := by
      rw [List.countP_eq_zero]
      intro a ha
      have := List.any_eq_false.mp hmem a ha
      simpa using this
    simp [List.countP_append, List.countP_cons, hzero]

/-- Assigning key `q` does not change how many pairs carry a different
key `k`. -/
theorem countP_dictAssign_other (d : List (String × String)) (k q v : String)
    (hne : k ≠ q) :
    (dictAssign d q v).countP (fun kv => kv.1 == k)
      = d.countP (fun kv => kv.1 == k) := by
  unfold dictAssign
  cases hmem : d.any (fun kv => kv.1 == q) with
  | true =>
    simp only [if_true]
    clear hmem
    induction d with
    | nil => rfl
    | cons hd tl ih =>
      obtain ⟨a, b⟩ := hd
      by_cases haq : a = q
      · subst haq
        have h1 : (a == k) = false := beq_eq_false_iff_ne.mpr (Ne.symm hne)
        rw [List.map_cons, if_pos (by simp)]
        simp only [List.countP_cons, h1, Bool.false_eq_true, if_false,
          Nat.add_zero]
        exact ih
      · have hb : ((a, b).1 == q) = false := beq_eq_false_iff_ne.mpr haq
        rw [List.map_cons, if_neg (by simp [haq])]
        simp only [List.countP_cons]
        rw [ih]
  | false =>
    simp only [Bool.false_eq_true, if_false]
    have h1 : (q == k) = false := beq_eq_false_iff_ne.mpr (Ne.symm hne)
    simp [List.countP_append, List.countP_cons, h1]

/-- A Python dict never carries a key twice. -/
theorem countP_dictOfPairs_le_one (l : List (String × String)) (k : String) :
    (dictOfPairs l).countP (fun kv => kv.1 == k) ≤ 1 := by
  induction l using List.reverseRecOn with
  | nil => simp [dictOfPairs]
  | append_singleton l kv ih =>
    obtain ⟨q, v⟩ := kv
    rw [dictOfPairs_concat]
    by_cases hk : k = q
    · subst hk
      rw [countP_dictAssign_self]
      omega
    · rw [countP_dictAssign_other _ _ _ _ hk]
      exact ih

/-- Claim C8 counterexample: a URL whose query repeats a parameter name
(`a=1&a=2`).  The pair `("a", "1")` is present in the original query and
its key is not the pagination key, yet after `_set_page` it is gone --
`dict(parse_qsl(...))` keeps only the last value of a repeated name -- so
"preserves every other parameter's value" fails as stated. -/
theorem set_page_drops_duplicate_param :
    ("a", "1") ∈ (Url.mk "https://sc/v1/components" [("a", "1"), ("a", "2")]).query ∧
    ("a" : String) ≠ pageParam ∧
    ("a", "1") ∉ (set_page (Url.mk "https://sc/v1/components" [("a", "1"), ("a", "2")]) 3).query := by
  decide

/-- Claim C8 (amended): for every URL and page number, `_set_page` keeps
the non-query part, yields exactly one pagination-page parameter whose
value is the requested page (an existing one is overwritten, never
duplicated), and for every other parameter NAME the surviving value is
the last value that name had in the original query (duplicate occurrences
of a name collapse to the last). -/
theorem set_page_query_spec :
    ∀ (u : Url) (page : Int),
      (set_page u page).base = u.base ∧
      (set_page u page).query.countP (fun kv => kv.1 == pageParam) = 1 ∧
      (set_page u page).query.lookup pageParam = some (toString page) ∧
      ∀ k : String, k ≠ pageParam →
        (set_page u page).query.lookup k = u.query.reverse.lookup k := by
  intro u page
  refine ⟨rfl, ?_, ?_, ?_⟩
  · show (dictAssign (dictOfPairs u.query) pageParam (toString page)).countP
        (fun kv => kv.1 == pageParam) = 1
    rw [countP_dictAssign_self]
    have := countP_dictOfPairs_le_one u.query pageParam
    omega
  · exact lookup_dictAssign_self (dictOfPairs u.query) pageParam (toString page)
  · intro k hk
    show (dictAssign (dictOfPairs u.query) pageParam (toString page)).lookup k
        = u.query.reverse.lookup k
    rw [lookup_dictAssign_other _ _ _ _ hk, lookup_dictOfPairs]

/-- Witness for `set_page_query_spec` on a URL with two distinct
parameters, one blank-valued. -/
theorem set_page_query_spec_witness :
    (set_page ⟨"https://sc/v1/components", [("a", "1"), ("b", "")]⟩ 5).query.lookup "a"
      = ([("a", "1"), ("b", "")] : List (String × String)).reverse.lookup "a" ∧
    (set_page ⟨"https://sc/v1/components", [("a", "1"), ("b", "")]⟩ 5).query.lookup pageParam
      = some (toString (5 : Int)) :=
  ⟨(set_page_query_spec ⟨"https://sc/v1/components", [("a", "1"), ("b", "")]⟩ 5).2.2.2
      "a" (by decide),
   (set_page_query_spec ⟨"https://sc/v1/components", [("a", "1"), ("b", "")]⟩ 5).2.2.1⟩

/-- The first-page block on a well-formed envelope: collects its `data`
array and reads its `pageCount`. -/
theorem firstPage_ok (fetchPage : Nat → Except String Json) (rs : List Json)
    (page : Nat) (pc : Int)
    (h : fetchPage 1 = Except.ok (pageEnvelope rs page pc)) :
    firstPage fetchPage = (rs, pc) := by
  simp [firstPage, h, pageEnvelope, pyGetItem, pyGetDefault, pyInt, pyIter,
    List.lookup]

/-- A subsequent page with a well-formed envelope contributes its `data`
array. -/
theorem pageItems_ok (fetchPage : Nat → Except String Json) (rs : List Json)
    (page : Nat) (pc : Int) (p : Nat)
    (h : fetchPage p = Except.ok (pageEnvelope rs page pc)) :
    pageItems fetchPage p = rs := by
  simp [pageItems, h, pageEnvelope, pyGetItem, pyGetDefault, pyIter,
    List.lookup]

/-- A subsequent page whose fetch raises contributes nothing. -/
theorem pageItems_err (fetchPage : Nat → Except String Json) (p : Nat)
    (e : String) (h : fetchPage p = Except.error e) :
    pageItems fetchPage p = [] := by
  simp [pageItems, h]

/-- Concatenated page lengths under a constant per-page record count. -/
theorem length_flatMap_const (l : List Nat) (f : Nat → List Json) (k : Nat)
    (h : ∀ p, (f p).length = k) : (l.flatMap f).length = l.length * k := by
  induction l with
  | nil => simp
  | cons a tl ih =>
    simp only [List.flatMap_cons, List.length_append, List.length_cons, ih, h a]
    ring

/-- Filtering one page number out of a page list matches blanking that
page's contribution. -/
theorem flatMap_filter_ne (l : List Nat) (f : Nat → List Json) (q : Nat) :
    (l.filter (fun p => p != q)).flatMap f
      = l.flatMap (fun p => if p = q then [] else f p) := by
  induction l with
  | nil => rfl
  | cons a tl ih =>
    by_cases haq : a = q
    · subst haq
      simp [List.filter_cons, ih]
    · simp [List.filter_cons, haq, ih]

/-- Claim C2 counterexample: page 1 is fetched successfully and its `data`
array holds one record, but the envelope has no `meta` block; the
aggregate is the EMPTY sequence, not the fetched records -- `json_data
.extend(...)` runs only after `first['meta']['pagination']` has been read,
so the exception discards the already-fetched page-1 records. -/
theorem get_with_retry_missing_pagination_counterexample :
    getWithRetry (fun _ => Except.ok (Json.obj [("data", Json.arr [Json.str "r1"])]))
        = [] ∧
    ([] : List Json) ≠ [Json.str "r1"] := by
  refine ⟨rfl, ?_⟩
  simp

/-- Claim C2 (amended): when the first page's body is fetched successfully
but carries no reachable `meta.pagination` block, `get_with_retry` treats
the collection as a single page and returns the empty sequence without
raising -- the fetched page-1 `data` records are discarded, not
returned. -/
theorem get_with_retry_missing_pagination_empty :
    ∀ (fetchPage : Nat → Except String Json) (j : Json),
      fetchPage 1 = Except.ok j → hasMetaPagination j = false →
      getWithRetry fetchPage = [] := by
  intro fetchPage j h1 h2
  have hfp : firstPage fetchPage = ([], 1) := by
    unfold firstPage
    rw [h1]
    unfold hasMetaPagination at h2
    cases hm : pyGetItem j "meta" with
    | error e => simp [hm]
    | ok m =>
      simp only [hm] at h2
      cases hp : pyGetItem m "pagination" with
      | error e2 => simp [hm, hp]
      | ok pp => simp [hp] at h2
  unfold getWithRetry
  rw [hfp]
  rfl

/-- Witness for `get_with_retry_missing_pagination_empty` at a body with
no `meta` key at all. -/
theorem get_with_retry_missing_pagination_empty_witness :
    getWithRetry (fun _ => Except.ok (Json.obj [("x", Json.num 1)])) = [] :=
  get_with_retry_missing_pagination_empty _ (Json.obj [("x", Json.num 1)]) rfl rfl

/-- Claim C5: under all-success with `pageCount = N` and `k` records per
page, `get_with_retry` returns exactly the `N` pages' records concatenated
in increasing page order (hence `N*k` records); when page 1 fails after
exhausting retries the result is the empty sequence with no exception;
and when one later page fails, only that page's records are omitted. -/
theorem get_with_retry_aggregation :
    (∀ (records : Nat → List Json) (N k : Nat), 1 ≤ N →
      (∀ p, (records p).length = k) →
      getWithRetry (fun p => Except.ok (pageEnvelope (records p) p (Int.ofNat N)))
          = (List.range' 1 N).flatMap records ∧
      (getWithRetry
          (fun p => Except.ok (pageEnvelope (records p) p (Int.ofNat N)))).length
          = N * k) ∧
    (∀ (fetchPage : Nat → Except String Json) (e : String),
      fetchPage 1 = Except.error e → getWithRetry fetchPage = []) ∧
    (∀ (records : Nat → List Json) (N q : Nat) (e : String), 2 ≤ q → q ≤ N →
      getWithRetry (fun p => if p = q then Except.error e
          else Except.ok (pageEnvelope (records p) p (Int.ofNat N)))
        = ((List.range' 1 N).filter (fun p => p != q)).flatMap records) := by
  refine ⟨?_, ?_, ?_⟩
  · intro records N k hN hk
    obtain ⟨m, rfl⟩ : ∃ m, N = m + 1 := ⟨N - 1, by omega⟩
    have hfp : firstPage
        (fun p => Except.ok (pageEnvelope (records p) p (Int.ofNat (m + 1))))
        = (records 1, Int.ofNat (m + 1)) := firstPage_ok _ _ _ _ rfl
    have hfun : pageItems
        (fun p => Except.ok (pageEnvelope (records p) p (Int.ofNat (m + 1))))
        = records := funext fun p => pageItems_ok _ _ _ _ _ rfl
    have hpl : pageList (Int.ofNat (m + 1)) = List.range' 2 m := by
      unfold pageList
      congr 1
      simp only [Int.ofNat_eq_natCast]
      omega
    have hmain : getWithRetry
        (fun p => Except.ok (pageEnvelope (records p) p (Int.ofNat (m + 1))))
        = (List.range' 1 (m + 1)).flatMap records := by
      unfold getWithRetry
      rw [hfp]
      dsimp only
      rw [hpl, hfun, List.range'_succ, List.flatMap_cons]
    refine ⟨hmain, ?_⟩
    rw [hmain, length_flatMap_const _ _ k hk, List.length_range']
  · intro fetchPage e h
    have hfp : firstPage fetchPage = ([], 1) := by
      unfold firstPage
      rw [h]
    unfold getWithRetry
    rw [hfp]
    rfl
  · intro records N q e h2 hq
    obtain ⟨m, rfl⟩ : ∃ m, N = m + 1 := ⟨N - 1, by omega⟩
    have h1q : (1 : Nat) ≠ q := by omega
    have hfp : firstPage (fun p => if p = q then Except.error e
        else Except.ok (pageEnvelope (records p) p (Int.ofNat (m + 1))))
        = (records 1, Int.ofNat (m + 1)) := by
      exact firstPage_ok _ (records 1) 1 (Int.ofNat (m + 1)) (by simp [h1q])
    have hfun : ∀ p, pageItems (fun p => if p = q then Except.error e
        else Except.ok (pageEnvelope (records p) p (Int.ofNat (m + 1)))) p
        = if p = q then [] else records p := by
      intro p
      by_cases hpq : p = q
      · subst hpq
        rw [if_pos rfl]
        exact pageItems_err _ p e (by simp)
      · rw [if_neg hpq]
        exact pageItems_ok _ (records p) p (Int.ofNat (m + 1)) p (by simp [hpq])
    have hpl : pageList (Int.ofNat (m + 1)) = List.range' 2 m := by
      unfold pageList
      congr 1
      simp only [Int.ofNat_eq_natCast]
      omega
    unfold getWithRetry
    rw [hfp]
    dsimp only
    rw [hpl, flatMap_filter_ne, List.range'_succ, List.flatMap_cons,
        if_neg h1q, funext hfun]

/-- Witness for `get_with_retry_aggregation`: three pages of one record
each, a hard page-1 failure, and a failure of page 2 of 3. -/
theorem get_with_retry_aggregation_witness :
    getWithRetry (fun p => Except.ok (pageEnvelope [Json.num (Int.ofNat p)] p (Int.ofNat 3)))
        = (List.range' 1 3).flatMap (fun p => [Json.num (Int.ofNat p)]) ∧
    (getWithRetry
        (fun p => Except.ok (pageEnvelope [Json.num (Int.ofNat p)] p (Int.ofNat 3)))).length
        = 3 * 1 ∧
    getWithRetry (fun _ => Except.error "connection refused") = [] ∧
    getWithRetry (fun p => if p = 2 then Except.error "boom"
        else Except.ok (pageEnvelope [Json.num (Int.ofNat p)] p (Int.ofNat 3)))
      = ((List.range' 1 3).filter (fun p => p != 2)).flatMap
          (fun p => [Json.num (Int.ofNat p)]) :=
  ⟨(get_with_retry_aggregation.1 (fun p => [Json.num (Int.ofNat p)]) 3 1
      (by norm_num) (fun _ => rfl)).1,
   (get_with_retry_aggregation.1 (fun p => [Json.num (Int.ofNat p)]) 3 1
      (by norm_num) (fun _ => rfl)).2,
   get_with_retry_aggregation.2.1 (fun _ => Except.error "connection refused")
      "connection refused" rfl,
   get_with_retry_aggregation.2.2 (fun p => [Json.num (Int.ofNat p)]) 3 2 "boom"
      (by norm_num) (by norm_num)⟩
